import Mathlib

/-!
Verification of the MongoDB account-provisioning scripts of the
MGL846_vcsShark replication kit (`src/setupMongoDB.js` and the unnamed
alternate script `src/unnamed/part_000`).

The scripts are straight-line sequences of mongo-shell statements of three
kinds: `use <db>` (switch the active database context), `db.dropUser(name)`
(remove an account, tolerated as a no-op when the account does not exist,
per the documented behaviour of the shell helper), and
`db.createUser(doc[, writeConcern])` (create an account with a password and
a role list; role entries are either bare role names, scoped to the current
database, or `{role, db}` pairs).

We embed the statement list literally, give it an executable small-step
semantics over a server state mapping database names to account lists, and
prove the configuration and execution properties claimed of the scripts.
-/

set_option autoImplicit false

namespace VcsShark

/-- A resolved role grant: a role name scoped to a database. -/
structure Role where
  role : String
  db : String
deriving DecidableEq

/-- A role entry as written in a `createUser` document: either a bare role
name (scoped to the current database at creation time) or an explicit
`{ role, db }` pair. -/
inductive RoleSpec where
  | bare (role : String)
  | scoped (role : String) (db : String)
deriving DecidableEq

/-- The optional write-concern object passed to `createUser`:
an acknowledgment level `w` and a timeout `wtimeout` in milliseconds. -/
structure WriteConcern where
  w : String
  wtimeout : Int
deriving DecidableEq

/-- The user document passed to `createUser`: account name, plaintext
password, and the ordered role list. -/
structure UserDoc where
  user : String
  pwd : String
  roles : List RoleSpec
deriving DecidableEq

/-- One mongo-shell statement of the setup scripts. -/
inductive Stmt where
  | use (db : String)
  | dropUser (name : String)
  | createUser (doc : UserDoc) (wc : Option WriteConcern)
deriving DecidableEq

/-- The write-concern object `{ w: "majority", wtimeout: 5000 }` passed to
three of the four `createUser` calls of `src/setupMongoDB.js` (lines 8, 16,
39) and to the `createUser` call for `testRun` of `src/unnamed/part_000`. -/
def wcMajority : WriteConcern := ⟨"majority", 5000⟩

/-- The user document of the `createUser` call for `testRun` in
`src/setupMongoDB.js`, lines 3-7. -/
def docTestRun : UserDoc :=
  ⟨"root", "balla1234$",
    [.scoped "clusterAdmin" "admin", .scoped "readAnyDatabase" "admin", .bare "readWrite"]⟩

/-- The user document of the `createUser` call for `test` in
`src/setupMongoDB.js`, lines 11-15. -/
def docTest : UserDoc :=
  ⟨"root", "root",
    [.scoped "clusterAdmin" "admin", .scoped "readAnyDatabase" "admin", .bare "readWrite"]⟩

/-- The user document of the `createUser` call for `admin` in
`src/setupMongoDB.js`, lines 21-28. -/
def docAdmin : UserDoc :=
  ⟨"root", "balla1234$",
    [.scoped "readWrite" "config", .bare "clusterAdmin"]⟩

/-- The user document of the `createUser` call for `vcsshark` in
`src/setupMongoDB.js`, lines 34-38. -/
def docVcsshark : UserDoc :=
  ⟨"root", "root",
    [.scoped "clusterAdmin" "admin", .scoped "readAnyDatabase" "admin", .bare "readWrite"]⟩

/-- The literal statement list of `src/setupMongoDB.js`, in source order. -/
def setupMongoDB : List Stmt :=
  [ .use "testRun",
    .dropUser "root",
    .createUser docTestRun (some wcMajority),
    .use "test",
    .dropUser "root",
    .createUser docTest (some wcMajority),
    .use "admin",
    .dropUser "root",
    .createUser docAdmin none,
    .use "vcsshark",
    .dropUser "root",
    .createUser docVcsshark (some wcMajority) ]

/-- The user document of the `createUser` call for `testRun` in
`src/unnamed/part_000`, lines 3-7 (transcribed from that file, not shared
with the `setupMongoDB.js` constants). -/
def docTestRun0 : UserDoc :=
  ⟨"root", "balla1234$",
    [.scoped "clusterAdmin" "admin", .scoped "readAnyDatabase" "admin", .bare "readWrite"]⟩

/-- The user document of the `createUser` call for `admin` in
`src/unnamed/part_000`, lines 12-21. -/
def docAdmin0 : UserDoc :=
  ⟨"root", "balla1234$",
    [.scoped "readWrite" "config", .bare "clusterAdmin"]⟩

/-- The literal statement list of the alternate script
`src/unnamed/part_000`, in source order. -/
def part000 : List Stmt :=
  [ .use "testRun",
    .dropUser "root",
    .createUser docTestRun0 (some ⟨"majority", 5000⟩),
    .use "admin",
    .dropUser "root",
    .createUser docAdmin0 none ]

/-- Static scan of a statement list: pairs every `createUser` statement with
the database context active at that point (the target of the closest
preceding `use`). -/
def provisionEntries (cur : String) : List Stmt → List (String × UserDoc × Option WriteConcern)
  | [] => []
  | .use d :: rest => provisionEntries d rest
  | .dropUser _ :: rest => provisionEntries cur rest
  | .createUser doc wc :: rest => (cur, doc, wc) :: provisionEntries cur rest

/-- Validity of a single role entry: a structured pair must have a
non-empty role name and a non-empty database scope. -/
def roleSpecOk : RoleSpec → Bool
  | .bare _ => true
  | .scoped r d => !(r == "") && !(d == "")

/-- Validity of one provisioning entry: non-empty account name, non-empty
role list, and every structured role pair has non-empty components. -/
def entryOk (e : String × UserDoc × Option WriteConcern) : Bool :=
  !(e.2.1.user == "") && !(e.2.1.roles == []) && e.2.1.roles.all roleSpecOk

/-- An account stored on the server: name, password, and the role grants
as resolved at creation time (bare role names scoped to the database that
was current when `createUser` ran). -/
structure Account where
  user : String
  pwd : String
  roles : List Role
deriving DecidableEq

/-- The server's authentication state: an association list from database
name to the list of accounts of that database (absent key = no accounts). -/
abbrev Server := List (String × List Account)

/-- The accounts of database `d` (empty when `d` has no entry). -/
def getDb (s : Server) (d : String) : List Account :=
  match s with
  | [] => []
  | (d', l) :: rest => if d' = d then l else getDb rest d

/-- Replace the account list of database `d` (appending an entry when `d`
has none). -/
def setDb (s : Server) (d : String) (l : List Account) : Server :=
  match s with
  | [] => [(d, l)]
  | (d', l') :: rest => if d' = d then (d, l) :: rest else (d', l') :: setDb rest d l

/-- Whether database `d` has an entry on the server. -/
def hasDb (s : Server) (d : String) : Bool :=
  match s with
  | [] => false
  | (d', _) :: rest => d' == d || hasDb rest d

/-- The full state seen by the shell: the active database context and the
server's authentication state. -/
structure DBState where
  current : String
  server : Server
deriving DecidableEq

/-- Resolve one role entry against the current database context: a bare
role name is scoped to the current database. -/
def resolveRole (cur : String) : RoleSpec → Role
  | .bare r => ⟨r, cur⟩
  | .scoped r d => ⟨r, d⟩

/-- The account created by a `createUser` document in context `cur`. -/
def mkAccount (cur : String) (doc : UserDoc) : Account :=
  ⟨doc.user, doc.pwd, doc.roles.map (resolveRole cur)⟩

/-- One step of execution. `use` switches the context. `dropUser` removes
every account of the given name from the current database and always
succeeds (the shell helper tolerates a missing account as a no-op).
`createUser` fails when an account of that name already exists, and
otherwise appends the new account; the write concern only governs
replica acknowledgment and does not affect the resulting state. -/
def execStmt : Stmt → DBState → Option DBState
  | .use d, st => some ⟨d, st.server⟩
  | .dropUser n, st =>
      some ⟨st.current,
        setDb st.server st.current ((getDb st.server st.current).filter (fun a => !(a.user == n)))⟩
  | .createUser doc _, st =>
      if (getDb st.server st.current).any (fun a => a.user == doc.user) then
        none
      else
        some ⟨st.current,
          setDb st.server st.current (getDb st.server st.current ++ [mkAccount st.current doc])⟩

/-- Run a statement list in order, aborting at the first failing statement:
`.error st` is the state produced by the statements already executed,
none of the remaining statements having run. -/
def run : List Stmt → DBState → Except DBState DBState
  | [], st => .ok st
  | s :: rest, st =>
      match execStmt s st with
      | none => .error st
      | some st' => run rest st'

/-- The final state of a run, whether or not it aborted. -/
def out : Except DBState DBState → DBState
  | .ok st => st
  | .error st => st

/-- The database contexts actually activated during execution, in order
(cut short when a statement fails). -/
def execTrace : List Stmt → DBState → List String
  | [], _ => []
  | s :: rest, st =>
      match execStmt s st with
      | none => []
      | some st' =>
          match s with
          | .use d => d :: execTrace rest st'
          | _ => execTrace rest st'

/-- The `use` targets of a statement list, in source order. -/
def useTrace : List Stmt → List String
  | [] => []
  | .use d :: rest => d :: useTrace rest
  | _ :: rest => useTrace rest

/-- A fresh server: no databases, no accounts; the shell starts in the
default `test` context. -/
def freshState : DBState := ⟨"test", []⟩

/-- The server transformation of one `use`/`dropUser`/`createUser` block of
a setup script: replace the accounts of database `d` by those accounts
not named `doc.user`, followed by the freshly created account. -/
def applyBlock (d : String) (doc : UserDoc) (s : Server) : Server :=
  setDb s d ((getDb s d).filter (fun a => !(a.user == doc.user)) ++ [mkAccount d doc])

/-- The server reached by `setupMongoDB` from any starting server. -/
def finalServer (s : Server) : Server :=
  applyBlock "vcsshark" docVcsshark
    (applyBlock "admin" docAdmin
      (applyBlock "test" docTest
        (applyBlock "testRun" docTestRun s)))

/-! ### Basic lemmas about the account list and the server map -/

theorem any_filter_user (l : List Account) (n : String) :
    (l.filter (fun a => !(a.user == n))).any (fun a => a.user == n) = false := by
  induction l with
  | nil => rfl
  | cons a l ih =>
      by_cases h : a.user == n
      · simp [List.filter_cons, h, ih]
      · simp [List.filter_cons, h, ih]

theorem filter_user_append (l : List Account) (acc : Account) (n : String)
    (h : acc.user == n) :
    ((l.filter (fun a => !(a.user == n))) ++ [acc]).filter (fun a => !(a.user == n)) =
      l.filter (fun a => !(a.user == n)) := by
  induction l with
  | nil => simp [List.filter_cons, h]
  | cons a l ih =>
      by_cases ha : a.user == n
      · simpa [List.filter_cons, ha] using ih
      · simpa [List.filter_cons, ha] using ih

theorem filter_no_user (l : List Account) (n : String)
    (h : l.any (fun a => a.user == n) = false) :
    l.filter (fun a => !(a.user == n)) = l := by
  induction l with
  | nil => rfl
  | cons a l ih =>
      simp only [List.any_cons, Bool.or_eq_false_iff] at h
      simp [List.filter_cons, h.1, ih h.2]

theorem getDb_setDb_self (s : Server) (d : String) (l : List Account) :
    getDb (setDb s d l) d = l := by
  induction s with
  | nil => simp [setDb, getDb]
  | cons p s ih =>
      by_cases h : p.1 = d
      · simp [setDb, getDb, h]
      · simp [setDb, getDb, h, ih]

theorem getDb_setDb_ne (s : Server) (d e : String) (l : List Account) (h : d ≠ e) :
    getDb (setDb s d l) e = getDb s e := by
  induction s with
  | nil => simp [setDb, getDb, h]
  | cons p s ih =>
      by_cases hp : p.1 = d
      · simp [setDb, getDb, hp, h, ih]
      · simp [setDb, getDb, hp, h, ih]

theorem setDb_setDb (s : Server) (d : String) (v w : List Account) :
    setDb (setDb s d v) d w = setDb s d w := by
  induction s with
  | nil => simp [setDb]
  | cons p s ih =>
      by_cases h : p.1 = d
      · simp [setDb, h]
      · simp [setDb, h, ih]

theorem hasDb_setDb_self (s : Server) (d : String) (l : List Account) :
    hasDb (setDb s d l) d = true := by
  induction s with
  | nil => simp [setDb, hasDb]
  | cons p s ih =>
      by_cases h : p.1 = d
      · simp [setDb, hasDb, h]
      · simp [setDb, hasDb, h, ih]

theorem hasDb_setDb (s : Server) (d e : String) (l : List Account)
    (h : hasDb s e = true) :
    hasDb (setDb s d l) e = true := by
  induction s with
  | nil => simp [hasDb] at h
  | cons p s ih =>
      obtain ⟨pd, pl⟩ := p
      simp only [hasDb, Bool.or_eq_true, beq_iff_eq] at h
      by_cases hp : pd = d
      · rcases h with h | h
        · simp [setDb, hasDb, hp, hp ▸ h]
        · simp [setDb, hasDb, hp, h]
      · rcases h with h | h
        · simp [setDb, hasDb, h ▸ hp, h]
        · simp [setDb, hasDb, hp, ih h]

theorem setDb_getDb_self (s : Server) (d : String) (h : hasDb s d = true) :
    setDb s d (getDb s d) = s := by
  induction s with
  | nil => simp [hasDb] at h
  | cons p s ih =>
      obtain ⟨pd, pl⟩ := p
      simp only [hasDb, Bool.or_eq_true, beq_iff_eq] at h
      by_cases hp : pd = d
      · simp [setDb, getDb, hp]
      · rcases h with h | h
        · exact absurd h hp
        · simp [setDb, getDb, hp, ih h]

/-! ### Symbolic execution of one `use`/`dropUser`/`createUser` block -/

theorem run_append_ok (l1 l2 : List Stmt) (st st' : DBState)
    (h : run l1 st = .ok st') :
    run (l1 ++ l2) st = run l2 st' := by
  induction l1 generalizing st with
  | nil =>
      simp only [run, Except.ok.injEq] at h
      simp [h]
  | cons s l1 ih =>
      simp only [List.cons_append, run] at h ⊢
      cases hes : execStmt s st with
      | none => simp [hes] at h
      | some st2 =>
          simp only [hes] at h ⊢
          exact ih st2 h

theorem run_provision (d n : String) (doc : UserDoc) (wc : Option WriteConcern)
    (rest : List Stmt) (st : DBState) (hn : doc.user = n) :
    run (.use d :: .dropUser n :: .createUser doc wc :: rest) st =
      run rest ⟨d, applyBlock d doc st.server⟩ := by
  subst hn
  simp [run, execStmt, getDb_setDb_self, any_filter_user, setDb_setDb, applyBlock]

theorem execTrace_provision (d n : String) (doc : UserDoc) (wc : Option WriteConcern)
    (rest : List Stmt) (st : DBState) (hn : doc.user = n) :
    execTrace (.use d :: .dropUser n :: .createUser doc wc :: rest) st =
      d :: execTrace rest ⟨d, applyBlock d doc st.server⟩ := by
  subst hn
  simp [execTrace, execStmt, getDb_setDb_self, any_filter_user, setDb_setDb, applyBlock]

theorem run_setup (st : DBState) :
    run setupMongoDB st = .ok ⟨"vcsshark", finalServer st.server⟩ := by
  show run (.use "testRun" :: .dropUser "root" :: .createUser docTestRun (some wcMajority) ::
      (.use "test" :: .dropUser "root" :: .createUser docTest (some wcMajority) ::
      (.use "admin" :: .dropUser "root" :: .createUser docAdmin none ::
      (.use "vcsshark" :: .dropUser "root" :: .createUser docVcsshark (some wcMajority) ::
        [])))) st = _
  rw [run_provision "testRun" "root" docTestRun (some wcMajority) _ _ (by rfl),
    run_provision "test" "root" docTest (some wcMajority) _ _ (by rfl),
    run_provision "admin" "root" docAdmin none _ _ (by rfl),
    run_provision "vcsshark" "root" docVcsshark (some wcMajority) _ _ (by rfl)]
  rfl

theorem run_part000 (st : DBState) :
    run part000 st =
      .ok ⟨"admin", applyBlock "admin" docAdmin0 (applyBlock "testRun" docTestRun0 st.server)⟩ := by
  show run (.use "testRun" :: .dropUser "root" :: .createUser docTestRun0 (some ⟨"majority", 5000⟩) ::
      (.use "admin" :: .dropUser "root" :: .createUser docAdmin0 none :: [])) st = _
  rw [run_provision "testRun" "root" docTestRun0 (some ⟨"majority", 5000⟩) _ _ (by rfl),
    run_provision "admin" "root" docAdmin0 none _ _ (by rfl)]
  rfl

theorem getDb_applyBlock_self (d : String) (doc : UserDoc) (s : Server) :
    getDb (applyBlock d doc s) d =
      (getDb s d).filter (fun a => !(a.user == doc.user)) ++ [mkAccount d doc] := by
  simp [applyBlock, getDb_setDb_self]

theorem getDb_applyBlock_ne (d e : String) (doc : UserDoc) (s : Server) (h : d ≠ e) :
    getDb (applyBlock d doc s) e = getDb s e := by
  simp [applyBlock, getDb_setDb_ne _ _ _ _ h]

theorem hasDb_applyBlock_self (d : String) (doc : UserDoc) (s : Server) :
    hasDb (applyBlock d doc s) d = true := by
  simp [applyBlock, hasDb_setDb_self]

theorem hasDb_applyBlock (d e : String) (doc : UserDoc) (s : Server)
    (h : hasDb s e = true) :
    hasDb (applyBlock d doc s) e = true := by
  simp [applyBlock, hasDb_setDb _ _ _ _ h]

theorem applyBlock_fixed (d : String) (doc : UserDoc) (t : Server) (l : List Account)
    (hh : hasDb t d = true)
    (hg : getDb t d = l.filter (fun a => !(a.user == doc.user)) ++ [mkAccount d doc]) :
    applyBlock d doc t = t := by
  unfold applyBlock
  rw [hg, filter_user_append l (mkAccount d doc) doc.user (by simp [mkAccount]), ← hg,
    setDb_getDb_self t d hh]

theorem finalServer_idem (s : Server) :
    finalServer (finalServer s) = finalServer s := by
  have hR : getDb (finalServer s) "testRun" =
      (getDb s "testRun").filter (fun a => !(a.user == docTestRun.user)) ++
        [mkAccount "testRun" docTestRun] := by
    unfold finalServer
    rw [getDb_applyBlock_ne _ _ _ _ (by decide), getDb_applyBlock_ne _ _ _ _ (by decide),
      getDb_applyBlock_ne _ _ _ _ (by decide), getDb_applyBlock_self]
  have hT : getDb (finalServer s) "test" =
      (getDb (applyBlock "testRun" docTestRun s) "test").filter
          (fun a => !(a.user == docTest.user)) ++ [mkAccount "test" docTest] := by
    unfold finalServer
    rw [getDb_applyBlock_ne _ _ _ _ (by decide), getDb_applyBlock_ne _ _ _ _ (by decide),
      getDb_applyBlock_self]
  have hA : getDb (finalServer s) "admin" =
      (getDb (applyBlock "test" docTest (applyBlock "testRun" docTestRun s)) "admin").filter
          (fun a => !(a.user == docAdmin.user)) ++ [mkAccount "admin" docAdmin] := by
    unfold finalServer
    rw [getDb_applyBlock_ne _ _ _ _ (by decide), getDb_applyBlock_self]
  have hV : getDb (finalServer s) "vcsshark" =
      (getDb (applyBlock "admin" docAdmin (applyBlock "test" docTest
          (applyBlock "testRun" docTestRun s))) "vcsshark").filter
          (fun a => !(a.user == docVcsshark.user)) ++ [mkAccount "vcsshark" docVcsshark] := by
    unfold finalServer
    rw [getDb_applyBlock_self]
  have hhR : hasDb (finalServer s) "testRun" = true := by
    unfold finalServer
    exact hasDb_applyBlock _ _ _ _ (hasDb_applyBlock _ _ _ _
      (hasDb_applyBlock _ _ _ _ (hasDb_applyBlock_self _ _ _)))
  have hhT : hasDb (finalServer s) "test" = true := by
    unfold finalServer
    exact hasDb_applyBlock _ _ _ _ (hasDb_applyBlock _ _ _ _ (hasDb_applyBlock_self _ _ _))
  have hhA : hasDb (finalServer s) "admin" = true := by
    unfold finalServer
    exact hasDb_applyBlock _ _ _ _ (hasDb_applyBlock_self _ _ _)
  have hhV : hasDb (finalServer s) "vcsshark" = true := by
    unfold finalServer
    exact hasDb_applyBlock_self _ _ _
  show applyBlock "vcsshark" docVcsshark (applyBlock "admin" docAdmin
    (applyBlock "test" docTest (applyBlock "testRun" docTestRun (finalServer s)))) =
      finalServer s
  rw [applyBlock_fixed _ _ _ _ hhR hR, applyBlock_fixed _ _ _ _ hhT hT,
    applyBlock_fixed _ _ _ _ hhA hA, applyBlock_fixed _ _ _ _ hhV hV]

theorem drop_removes (d n : String) (st : DBState) :
    (getDb (out (run [.use d, .dropUser n] st)).server d).any (fun a => a.user == n) = false := by
  simp [run, execStmt, out, getDb_setDb_self, any_filter_user]

/-- Validity of an optional write concern as claimed of this script:
acknowledgment level `majority` and a timeout of 5000, a non-negative
integer. -/
def wcOk (wc : WriteConcern) : Bool :=
  (wc.w == "majority") && (wc.wtimeout == 5000) && decide (0 ≤ wc.wtimeout)

/-! ### The claims -/

/-- C1: running the full statement list of `setupMongoDB.js` against a
fresh server leaves each of the four databases `testRun`, `test`, `admin`
and `vcsshark` with exactly one account, named `root`, whose role set is
exactly `[clusterAdmin@admin, readAnyDatabase@admin, readWrite@<current
db>]` for `testRun`, `test` and `vcsshark`, and exactly
`[readWrite@config, clusterAdmin@admin]` for `admin`. -/
theorem setup_final_accounts :
    getDb (out (run setupMongoDB freshState)).server "testRun" =
      [⟨"root", "balla1234$",
        [⟨"clusterAdmin", "admin"⟩, ⟨"readAnyDatabase", "admin"⟩, ⟨"readWrite", "testRun"⟩]⟩] ∧
    getDb (out (run setupMongoDB freshState)).server "test" =
      [⟨"root", "root",
        [⟨"clusterAdmin", "admin"⟩, ⟨"readAnyDatabase", "admin"⟩, ⟨"readWrite", "test"⟩]⟩] ∧
    getDb (out (run setupMongoDB freshState)).server "admin" =
      [⟨"root", "balla1234$", [⟨"readWrite", "config"⟩, ⟨"clusterAdmin", "admin"⟩]⟩] ∧
    getDb (out (run setupMongoDB freshState)).server "vcsshark" =
      [⟨"root", "root",
        [⟨"clusterAdmin", "admin"⟩, ⟨"readAnyDatabase", "admin"⟩, ⟨"readWrite", "vcsshark"⟩]⟩] := by
  decide

/-- C2: running the full statement list of `setupMongoDB.js` is
idempotent: from every starting state, running it a second time leaves
the server in the same final state as after the first run. -/
theorem setup_idempotent (st : DBState) :
    out (run setupMongoDB (out (run setupMongoDB st))) = out (run setupMongoDB st) := by
  rw [run_setup st]
  simp only [out]
  rw [run_setup]
  simp only [out]
  exact congrArg (DBState.mk "vcsshark") (finalServer_idem st.server)

/-- C3: in every target-database context of `setupMongoDB.js`, the
`dropUser("root")` statement comes before the `createUser` statement for
`root` (indices 1 < 2, 4 < 5, 7 < 8, 10 < 11), and the pair is not
atomic: from any starting state, executing the prefix that stops right
after the drop leaves that database with no account named `root`. -/
theorem drop_before_create_nonatomic :
    (setupMongoDB[1]? = some (.dropUser "root") ∧
     setupMongoDB[2]? = some (.createUser docTestRun (some wcMajority)) ∧
     ∀ st : DBState, (getDb (out (run (setupMongoDB.take 2) st)).server "testRun").any
        (fun a => a.user == "root") = false) ∧
    (setupMongoDB[4]? = some (.dropUser "root") ∧
     setupMongoDB[5]? = some (.createUser docTest (some wcMajority)) ∧
     ∀ st : DBState, (getDb (out (run (setupMongoDB.take 5) st)).server "test").any
        (fun a => a.user == "root") = false) ∧
    (setupMongoDB[7]? = some (.dropUser "root") ∧
     setupMongoDB[8]? = some (.createUser docAdmin none) ∧
     ∀ st : DBState, (getDb (out (run (setupMongoDB.take 8) st)).server "admin").any
        (fun a => a.user == "root") = false) ∧
    (setupMongoDB[10]? = some (.dropUser "root") ∧
     setupMongoDB[11]? = some (.createUser docVcsshark (some wcMajority)) ∧
     ∀ st : DBState, (getDb (out (run (setupMongoDB.take 11) st)).server "vcsshark").any
        (fun a => a.user == "root") = false) := by
  refine ⟨⟨by decide, by decide, ?_⟩, ⟨by decide, by decide, ?_⟩,
    ⟨by decide, by decide, ?_⟩, ⟨by decide, by decide, ?_⟩⟩
  · intro st
    rw [show setupMongoDB.take 2 = [.use "testRun", .dropUser "root"] from rfl]
    exact drop_removes "testRun" "root" st
  · intro st
    rw [show setupMongoDB.take 5 = .use "testRun" :: .dropUser "root" ::
        .createUser docTestRun (some wcMajority) :: [.use "test", .dropUser "root"] from rfl,
      run_provision "testRun" "root" docTestRun (some wcMajority) _ _ (by rfl)]
    exact drop_removes "test" "root" _
  · intro st
    rw [show setupMongoDB.take 8 = .use "testRun" :: .dropUser "root" ::
        .createUser docTestRun (some wcMajority) :: .use "test" :: .dropUser "root" ::
        .createUser docTest (some wcMajority) :: [.use "admin", .dropUser "root"] from rfl,
      run_provision "testRun" "root" docTestRun (some wcMajority) _ _ (by rfl),
      run_provision "test" "root" docTest (some wcMajority) _ _ (by rfl)]
    exact drop_removes "admin" "root" _
  · intro st
    rw [show setupMongoDB.take 11 = .use "testRun" :: .dropUser "root" ::
        .createUser docTestRun (some wcMajority) :: .use "test" :: .dropUser "root" ::
        .createUser docTest (some wcMajority) :: .use "admin" :: .dropUser "root" ::
        .createUser docAdmin none :: [.use "vcsshark", .dropUser "root"] from rfl,
      run_provision "testRun" "root" docTestRun (some wcMajority) _ _ (by rfl),
      run_provision "test" "root" docTest (some wcMajority) _ _ (by rfl),
      run_provision "admin" "root" docAdmin none _ _ (by rfl)]
    exact drop_removes "vcsshark" "root" _

/-- C4: a `dropUser` against a database holding no account of that name
succeeds and leaves the server state unchanged (execution continues),
while any statement that fails aborts all remaining statements of the
session, leaving exactly the state produced by the statements already
executed. -/
theorem drop_tolerated_and_failure_aborts :
    (∀ (n : String) (st : DBState),
        (getDb st.server st.current).any (fun a => a.user == n) = false →
        ∃ st', execStmt (.dropUser n) st = some st' ∧ st'.current = st.current ∧
          ∀ d, getDb st'.server d = getDb st.server d) ∧
    (∀ (pre : List Stmt) (s : Stmt) (rest : List Stmt) (st st' : DBState),
        run pre st = .ok st' → execStmt s st' = none →
        run (pre ++ s :: rest) st = .error st') := by
  constructor
  · intro n st h
    refine ⟨_, rfl, rfl, ?_⟩
    intro d
    by_cases hd : st.current = d
    · subst hd
      rw [getDb_setDb_self, filter_no_user _ _ h]
    · rw [getDb_setDb_ne _ _ _ _ hd]
  · intro pre s rest st st' h1 h2
    rw [run_append_ok _ _ _ _ h1]
    simp [run, h2]

/-- Witness for C4: the tolerated drop at a fresh server, and a failing
`createUser` (account already present) aborting the remaining statements
with the pre-failure state. -/
theorem drop_tolerated_and_failure_aborts_witness :
    (∃ st', execStmt (.dropUser "root") freshState = some st' ∧
        st'.current = freshState.current ∧
        ∀ d, getDb st'.server d = getDb freshState.server d) ∧
    run ([] ++ .createUser docAdmin none :: [.use "vcsshark"])
        ⟨"admin", [("admin", [mkAccount "admin" docAdmin])]⟩ =
      .error ⟨"admin", [("admin", [mkAccount "admin" docAdmin])]⟩ :=
  ⟨drop_tolerated_and_failure_aborts.1 "root" freshState (by decide),
   drop_tolerated_and_failure_aborts.2 [] (.createUser docAdmin none) [.use "vcsshark"]
     ⟨"admin", [("admin", [mkAccount "admin" docAdmin])]⟩ _ rfl (by decide)⟩

/-- C5: `setupMongoDB.js` is straight-line: its `use` statements name
`testRun`, `test`, `admin`, `vcsshark` in that source order, and from
every starting state the executed context trace is exactly that sequence
and the whole statement list runs to completion, independent of any
statement's outcome. -/
theorem straight_line_fixed_order :
    useTrace setupMongoDB = ["testRun", "test", "admin", "vcsshark"] ∧
    (∀ st : DBState, execTrace setupMongoDB st = ["testRun", "test", "admin", "vcsshark"]) ∧
    (∀ st : DBState, run setupMongoDB st = .ok ⟨"vcsshark", finalServer st.server⟩) := by
  refine ⟨by decide, ?_, run_setup⟩
  intro st
  show execTrace (.use "testRun" :: .dropUser "root" :: .createUser docTestRun (some wcMajority) ::
      (.use "test" :: .dropUser "root" :: .createUser docTest (some wcMajority) ::
      (.use "admin" :: .dropUser "root" :: .createUser docAdmin none ::
      (.use "vcsshark" :: .dropUser "root" :: .createUser docVcsshark (some wcMajority) ::
        [])))) st = _
  rw [execTrace_provision "testRun" "root" docTestRun (some wcMajority) _ _ (by rfl),
    execTrace_provision "test" "root" docTest (some wcMajority) _ _ (by rfl),
    execTrace_provision "admin" "root" docAdmin none _ _ (by rfl),
    execTrace_provision "vcsshark" "root" docVcsshark (some wcMajority) _ _ (by rfl)]
  rfl

/-- C6: the script has four account-provisioning entries and every one of
them has a non-empty account name, a non-empty role list, and non-empty
role name and database scope in each structured role pair. -/
theorem entries_wellformed :
    (provisionEntries "" setupMongoDB).length = 4 ∧
    (provisionEntries "" setupMongoDB).all entryOk = true := by
  decide

/-- C7: every `createUser` statement of the script that passes a write
concern passes acknowledgment level `majority` with `wtimeout = 5000`, a
non-negative integer. -/
theorem write_concern_timeout :
    (provisionEntries "" setupMongoDB).all (fun e => e.2.2.all wcOk) = true := by
  decide

/-- C8: the plaintext passwords are not uniform: `testRun` and `admin`
get password `balla1234$` while `test` and `vcsshark` get password
`root`, and the two passwords differ. -/
theorem passwords_not_uniform :
    (provisionEntries "" setupMongoDB).map (fun e => (e.1, e.2.1.pwd)) =
      [("testRun", "balla1234$"), ("test", "root"),
       ("admin", "balla1234$"), ("vcsshark", "root")] ∧
    ("balla1234$" : String) ≠ "root" := by
  decide

/-- C9: exactly the `createUser` statement for `admin` omits the write
concern; those for `testRun`, `test`, and `vcsshark` each pass
`{ w: "majority", wtimeout: 5000 }`. -/
theorem write_concern_presence :
    (provisionEntries "" setupMongoDB).map (fun e => (e.1, e.2.2)) =
      [("testRun", some wcMajority), ("test", some wcMajority),
       ("admin", (none : Option WriteConcern)), ("vcsshark", some wcMajority)] ∧
    wcMajority = ⟨"majority", 5000⟩ := by
  decide

/-- C10: the alternate script `src/unnamed/part_000` provisions exactly
the `testRun` and `admin` entries of `setupMongoDB.js` (same account
name, password, role list and write concern); from every starting state
its run leaves `testRun` and `admin` with exactly the account state that
`setupMongoDB.js` gives them, and leaves the accounts of `test` and
`vcsshark` unchanged. -/
theorem part000_refines_setup :
    provisionEntries "" part000 =
      (provisionEntries "" setupMongoDB).filter
        (fun e => e.1 == "testRun" || e.1 == "admin") ∧
    (∀ st : DBState,
      getDb (out (run part000 st)).server "testRun" =
        getDb (out (run setupMongoDB st)).server "testRun" ∧
      getDb (out (run part000 st)).server "admin" =
        getDb (out (run setupMongoDB st)).server "admin") ∧
    (∀ st : DBState,
      getDb (out (run part000 st)).server "test" = getDb st.server "test" ∧
      getDb (out (run part000 st)).server "vcsshark" = getDb st.server "vcsshark") := by
  refine ⟨by decide, ?_, ?_⟩
  · intro st
    rw [run_part000, run_setup]
    simp only [out]
    constructor
    · show getDb (applyBlock "admin" docAdmin0 (applyBlock "testRun" docTestRun0 st.server))
          "testRun" = getDb (finalServer st.server) "testRun"
      rw [getDb_applyBlock_ne "admin" "testRun" _ _ (by decide), getDb_applyBlock_self]
      unfold finalServer
      rw [getDb_applyBlock_ne "vcsshark" "testRun" _ _ (by decide),
        getDb_applyBlock_ne "admin" "testRun" _ _ (by decide),
        getDb_applyBlock_ne "test" "testRun" _ _ (by decide), getDb_applyBlock_self]
      rfl
    · show getDb (applyBlock "admin" docAdmin0 (applyBlock "testRun" docTestRun0 st.server))
          "admin" = getDb (finalServer st.server) "admin"
      rw [getDb_applyBlock_self, getDb_applyBlock_ne "testRun" "admin" _ _ (by decide)]
      unfold finalServer
      rw [getDb_applyBlock_ne "vcsshark" "admin" _ _ (by decide), getDb_applyBlock_self,
        getDb_applyBlock_ne "test" "admin" _ _ (by decide),
        getDb_applyBlock_ne "testRun" "admin" _ _ (by decide)]
      rfl
  · intro st
    rw [run_part000]
    simp only [out]
    constructor
    · rw [getDb_applyBlock_ne "admin" "test" _ _ (by decide),
        getDb_applyBlock_ne "testRun" "test" _ _ (by decide)]
    · rw [getDb_applyBlock_ne "admin" "vcsshark" _ _ (by decide),
        getDb_applyBlock_ne "testRun" "vcsshark" _ _ (by decide)]

end VcsShark
